import Mathlib

/-!
Shallow embedding of `src/lib/addressService.ts` from the chicago-oracle
repository, together with proofs of the specification claims about the
address-enrichment pipeline.

Modelling conventions:
* A TypeScript `string | undefined` field is `Option String`; JavaScript
  truthiness (where both `undefined` and `""` are falsy) is the `truthy`
  predicate below, and the JS `a || b` operator on such values is `orT`.
* `fetch` + JSON-parse of a provider is abstracted as a `FetchOutcome`
  input: either the request/parse threw (`fetchError`, covering network
  errors, non-ok responses and parse errors) or it produced parsed data.
* `Promise.allSettled` results are `Settled` values; since both provider
  functions catch all of their own errors, `enrich` feeds `fulfilled`
  results to `getEnhancedAddress`, exactly as in the source.
* `number | null` for `distanceFromStreet` is `Option Int` with `none`
  for `null`/`undefined`; the code never stores an actual number there,
  so the numeric carrier is irrelevant.
* `Array.prototype.join(', ')` is `joinComma`, and the successive
  conditional `push`es are explicit list appends.
-/

namespace ChicagoOracle

/-- JS truthiness of a `string | undefined` value: `undefined` and the
empty string are falsy, every other string is truthy. -/
def truthy : Option String → Bool
  | none => false
  | some s => !s.isEmpty

/-- JS `a || b` on `string | undefined` values: `a` when truthy, else `b`. -/
def orT (a b : Option String) : Option String :=
  if truthy a then a else b

/-- The string carried by an optional value (JS coercion when the value is
interpolated or pushed; only ever applied to truthy values in the code). -/
def sval (a : Option String) : String := a.getD ""

/-- `Array.prototype.join(', ')`. -/
def joinComma : List String → String
  | [] => ""
  | [p] => p
  | p :: q :: rest => p ++ ", " ++ joinComma (q :: rest)

/-- The `AddressComponents` interface of `addressService.ts`. -/
structure AddressComponents where
  streetNumber : Option String := none
  streetName : Option String := none
  neighborhood : Option String := none
  city : Option String := none
  state : Option String := none
  country : Option String := none
  postalCode : Option String := none
  formattedAddress : Option String := none
  distanceFromStreet : Option Int := none
  deriving DecidableEq, Repr

/-- The `data.address` object of a Nominatim reverse-geocoding response. -/
structure NominatimAddress where
  house_number : Option String := none
  road : Option String := none
  pedestrian : Option String := none
  footway : Option String := none
  neighbourhood : Option String := none
  suburb : Option String := none
  city : Option String := none
  town : Option String := none
  village : Option String := none
  state : Option String := none
  country : Option String := none
  postcode : Option String := none
  deriving DecidableEq, Repr

/-- A parsed Nominatim response body: `data.address` may be missing. -/
structure NominatimResponse where
  address : Option NominatimAddress := none
  deriving DecidableEq, Repr

/-- A parsed BigDataCloud response body. -/
structure BigDataCloudData where
  locality : Option String := none
  principalSubdivision : Option String := none
  countryName : Option String := none
  deriving DecidableEq, Repr

/-- Outcome of a `fetch` + JSON parse: either some step threw (network
error, `!response.ok`, or parse error) or it yielded parsed data. -/
inductive FetchOutcome (α : Type) where
  | fetchError : FetchOutcome α
  | ok : α → FetchOutcome α
  deriving DecidableEq, Repr

/-- A `Promise.allSettled` entry: fulfilled with a value, or rejected. -/
inductive Settled (α : Type) where
  | fulfilled : α → Settled α
  | rejected : Settled α
  deriving DecidableEq, Repr

/-- The `parts` array built by `formatNominatimAddress` via conditional
`push`es (lines 121-151 of `addressService.ts`). -/
def nominatimParts (address : NominatimAddress) : List String :=
  let street := orT address.road (orT address.pedestrian address.footway)
  let parts : List String := []
  let parts :=
    if truthy address.house_number && truthy street then
      parts ++ [sval address.house_number ++ " " ++ sval street]
    else if truthy street then
      parts ++ [sval street]
    else parts
  let nb := orT address.neighbourhood address.suburb
  let parts := if truthy nb then parts ++ [sval nb] else parts
  let c := orT address.city (orT address.town address.village)
  let parts := if truthy c then parts ++ [sval c] else parts
  let parts := if truthy address.state then parts ++ [sval address.state] else parts
  let parts := if truthy address.country then parts ++ [sval address.country] else parts
  parts

/-- `formatNominatimAddress`: join the parts with `", "`. -/
def formatNominatimAddress (address : NominatimAddress) : String :=
  joinComma (nominatimParts address)

/-- `formatBigDataCloudAddress` (lines 157-163). -/
def formatBigDataCloudAddress (data : BigDataCloudData) : String :=
  let parts : List String := []
  let parts := if truthy data.locality then parts ++ [sval data.locality] else parts
  let parts :=
    if truthy data.principalSubdivision then parts ++ [sval data.principalSubdivision]
    else parts
  let parts := if truthy data.countryName then parts ++ [sval data.countryName] else parts
  joinComma parts

/-- `calculateDistanceFromStreet` (lines 168-178): both branches return
`null`. -/
def calculateDistanceFromStreet (lat lng : Float) (address : NominatimAddress) :
    Option Int :=
  if !truthy address.road && !truthy address.pedestrian && !truthy address.footway then
    none
  else
    none

/-- The object literal returned by `getNominatimAddress` when the response
carries an `address` object (lines 73-83). -/
def mapNominatimAddress (lat lng : Float) (address : NominatimAddress) :
    AddressComponents where
  streetNumber := address.house_number
  streetName := orT address.road (orT address.pedestrian address.footway)
  neighborhood := orT address.neighbourhood address.suburb
  city := orT address.city (orT address.town address.village)
  state := address.state
  country := address.country
  postalCode := address.postcode
  formattedAddress := some (formatNominatimAddress address)
  distanceFromStreet := calculateDistanceFromStreet lat lng address

/-- `getNominatimAddress` (lines 55-88): any thrown error is caught and
turned into `null`; a missing/null body or missing `address` key yields
`null`; otherwise the mapped components. -/
def getNominatimAddress (lat lng : Float)
    (outcome : FetchOutcome (Option NominatimResponse)) :
    Option AddressComponents :=
  match outcome with
  | .fetchError => none
  | .ok none => none
  | .ok (some data) =>
    match data.address with
    | none => none
    | some address => some (mapNominatimAddress lat lng address)

/-- The object literal returned by `getBigDataCloudAddress` (lines 105-111). -/
def mapBigDataCloudAddress (data : BigDataCloudData) : AddressComponents where
  city := data.locality
  state := data.principalSubdivision
  country := data.countryName
  formattedAddress := some (formatBigDataCloudAddress data)
  distanceFromStreet := none

/-- `getBigDataCloudAddress` (lines 93-116): any thrown error is caught and
turned into `null`; otherwise the parsed body is mapped unconditionally. -/
def getBigDataCloudAddress (lat lng : Float)
    (outcome : FetchOutcome BigDataCloudData) : Option AddressComponents :=
  match outcome with
  | .fetchError => none
  | .ok data => some (mapBigDataCloudAddress data)

/-- `getEnhancedAddress` selection over the two settled results
(lines 30-49): primary first when fulfilled and non-null, then secondary,
else `null`. -/
def getEnhancedAddress
    (nominatimResult bigDataCloudResult : Settled (Option AddressComponents)) :
    Option AddressComponents :=
  match nominatimResult with
  | .fulfilled (some v) => some v
  | _ =>
    match bigDataCloudResult with
    | .fulfilled (some v) => some v
    | _ => none

/-- The whole `enrich` pipeline: both provider lookups catch all of their
own errors, so `Promise.allSettled` always sees two fulfilled promises
whose values are the provider functions' results. -/
def enrich (lat lng : Float)
    (nominatimOutcome : FetchOutcome (Option NominatimResponse))
    (bigDataCloudOutcome : FetchOutcome BigDataCloudData) :
    Option AddressComponents :=
  getEnhancedAddress
    (.fulfilled (getNominatimAddress lat lng nominatimOutcome))
    (.fulfilled (getBigDataCloudAddress lat lng bigDataCloudOutcome))

/-- `getDisplayAddress` (lines 183-210). -/
def getDisplayAddress (enhancedAddress : Option AddressComponents)
    (fallbackAddress : Option String) : String :=
  match enhancedAddress with
  | none => sval (orT fallbackAddress (some "Location unknown"))
  | some e =>
    if truthy e.streetNumber && truthy e.streetName then
      sval e.streetNumber ++ " " ++ sval e.streetName
    else if truthy e.streetName then
      sval e.streetName
    else if truthy e.neighborhood then
      sval e.neighborhood
    else if truthy e.city then
      sval e.city
    else
      sval (orT e.formattedAddress (orT fallbackAddress (some "Location unknown")))

/-- One conditional deduplicating `push` of `getDescriptiveLocation`:
append the field's value when the field is truthy and the value is not
already present (JS `parts.includes`, strict string equality). -/
def pushIfNew (parts : List String) (field : Option String) : List String :=
  if truthy field && !(parts.contains (sval field)) then parts ++ [sval field]
  else parts

/-- The `parts` array built by `getDescriptiveLocation` (lines 220-242):
street line first, then neighborhood, city and state, each appended only
when not already present. -/
def descriptiveParts (e : AddressComponents) : List String :=
  let parts : List String :=
    if truthy e.streetNumber && truthy e.streetName then
      [sval e.streetNumber ++ " " ++ sval e.streetName]
    else if truthy e.streetName then
      [sval e.streetName]
    else []
  pushIfNew (pushIfNew (pushIfNew parts e.neighborhood) e.city) e.state

/-- `getDescriptiveLocation` (lines 215-250). -/
def getDescriptiveLocation (enhancedAddress : Option AddressComponents)
    (fallbackAddress : Option String) : String :=
  match enhancedAddress with
  | none => sval (orT fallbackAddress (some "Location unknown"))
  | some e =>
    let parts := descriptiveParts e
    if parts.length == 0 && truthy e.formattedAddress then
      sval e.formattedAddress
    else if parts.length > 0 then
      joinComma parts
    else
      sval (orT fallbackAddress (some "Location unknown"))

/-- Spec-side street line for the formatted address: house number + street
name when both present, else the street name alone, else empty. -/
def streetLineOf (address : NominatimAddress) : String :=
  let street := orT address.road (orT address.pedestrian address.footway)
  if truthy address.house_number && truthy street then
    sval address.house_number ++ " " ++ sval street
  else if truthy street then sval street
  else ""

/-- Spec-side formatted address, following the spec's words: the `", "`
join, omitting empty segments, of street line, neighborhood, city, state,
country. -/
def formattedAddressSpec (address : NominatimAddress) : String :=
  joinComma
    (([streetLineOf address,
       sval (orT address.neighbourhood address.suburb),
       sval (orT address.city (orT address.town address.village)),
       sval address.state,
       sval address.country]).filter (fun s => !s.isEmpty))

/-- Spec-side display precedence: the first truthy candidate, else the
literal fallback. -/
def firstAvailable : List (Option String) → String
  | [] => "Location unknown"
  | c :: cs => if truthy c then sval c else firstAvailable cs

/-- Spec-side `toDisplayString`: first available of street number + street
name, street name alone, neighborhood, city, formatted address, supplied
fallback, then `"Location unknown"`. -/
def displaySpec (enhancedAddress : Option AddressComponents)
    (fallbackAddress : Option String) : String :=
  let candidates : List (Option String) :=
    match enhancedAddress with
    | none => []
    | some e =>
      [ if truthy e.streetNumber && truthy e.streetName then
          some (sval e.streetNumber ++ " " ++ sval e.streetName)
        else none,
        e.streetName, e.neighborhood, e.city, e.formattedAddress ]
  firstAvailable (candidates ++ [fallbackAddress])

/-- A concrete Nominatim address object used in example instantiations:
the spec's end-to-end example at coordinates (41.8781, -87.6298). -/
def exampleNominatimAddress : NominatimAddress :=
  { house_number := some "233", road := some "S Wacker Dr",
    city := some "Chicago", state := some "Illinois", country := some "USA" }

/-- A concrete Nominatim response carrying `exampleNominatimAddress`. -/
def exampleNominatimResponse : NominatimResponse :=
  { address := some exampleNominatimAddress }

/-- A concrete BigDataCloud response body used in example instantiations. -/
def exampleBigDataCloudData : BigDataCloudData :=
  { locality := some "Chicago", principalSubdivision := some "Illinois",
    countryName := some "United States" }

/-! ### Helper lemmas -/

lemma isEmpty_append_space (a b : String) : (a ++ " " ++ b).isEmpty = false := by
  rw [Bool.eq_false_iff]
  intro h
  rw [String.isEmpty_iff] at h
  have h2 := congrArg String.data h
  simp at h2

lemma truthy_none : truthy none = false := rfl

lemma truthy_some (s : String) : truthy (some s) = !s.isEmpty := rfl

lemma sval_some (s : String) : sval (some s) = s := rfl

lemma sval_orT (a b : Option String) :
    sval (orT a b) = if truthy a then sval a else sval b := by
  unfold orT
  split <;> rfl

lemma truthy_sval (o : Option String) : truthy o = !(sval o).isEmpty := by
  cases o with
  | none => decide
  | some s => simp [truthy, sval]

lemma calcDist_none (lat lng : Float) (address : NominatimAddress) :
    calculateDistanceFromStreet lat lng address = none := by
  unfold calculateDistanceFromStreet
  split <;> rfl

lemma filter_push (parts : List String) (o : Option String) :
    (if truthy o then parts ++ [sval o] else parts) =
      parts ++ ([sval o].filter fun s => !s.isEmpty) := by
  cases o with
  | none => simp [truthy, sval, List.filter, show "".isEmpty = true from rfl]
  | some s => cases h : s.isEmpty <;> simp [truthy, sval, List.filter, h]

lemma filter_five (p : String → Bool) (s1 s2 s3 s4 s5 : String) :
    List.filter p [s1, s2, s3, s4, s5] =
      List.filter p [s1] ++ List.filter p [s2] ++ List.filter p [s3] ++
        List.filter p [s4] ++ List.filter p [s5] := by
  simp [← List.filter_append]

lemma streetLine_filter (address : NominatimAddress) :
    ([streetLineOf address].filter fun s => !s.isEmpty) =
      (if truthy address.house_number &&
          truthy (orT address.road (orT address.pedestrian address.footway)) then
        ([] : List String) ++
          [sval address.house_number ++ " " ++
            sval (orT address.road (orT address.pedestrian address.footway))]
      else if truthy (orT address.road (orT address.pedestrian address.footway)) then
        ([] : List String) ++
          [sval (orT address.road (orT address.pedestrian address.footway))]
      else ([] : List String)) := by
  unfold streetLineOf
  by_cases h1 : (truthy address.house_number &&
      truthy (orT address.road (orT address.pedestrian address.footway))) = true
  · simp [h1, List.filter, isEmpty_append_space]
  · simp only [h1, Bool.false_eq_true, if_false]
    by_cases h2 : truthy (orT address.road (orT address.pedestrian address.footway)) = true
    · have hne : (sval (orT address.road (orT address.pedestrian address.footway))).isEmpty
          = false := by
        rw [truthy_sval] at h2
        simpa using h2
      simp [h2, List.filter, hne]
    · simp [h2, List.filter, show "".isEmpty = true from rfl]

lemma nominatimParts_chunks (address : NominatimAddress) :
    nominatimParts address =
      (if truthy address.house_number &&
          truthy (orT address.road (orT address.pedestrian address.footway)) then
        ([] : List String) ++
          [sval address.house_number ++ " " ++
            sval (orT address.road (orT address.pedestrian address.footway))]
      else if truthy (orT address.road (orT address.pedestrian address.footway)) then
        ([] : List String) ++
          [sval (orT address.road (orT address.pedestrian address.footway))]
      else ([] : List String)) ++
      ([sval (orT address.neighbourhood address.suburb)].filter fun s => !s.isEmpty) ++
      ([sval (orT address.city (orT address.town address.village))].filter
        fun s => !s.isEmpty) ++
      ([sval address.state].filter fun s => !s.isEmpty) ++
      ([sval address.country].filter fun s => !s.isEmpty) := by
  simp only [nominatimParts]
  rw [filter_push _ address.country, filter_push _ address.state,
    filter_push _ (orT address.city (orT address.town address.village)),
    filter_push _ (orT address.neighbourhood address.suburb)]

lemma pushIfNew_nodup (parts : List String) (o : Option String)
    (h : parts.Nodup) : (pushIfNew parts o).Nodup := by
  unfold pushIfNew
  split
  · rename_i hc
    have hmem : sval o ∉ parts := by
      simp only [Bool.and_eq_true, Bool.not_eq_true'] at hc
      simpa using hc.2
    simp [List.nodup_append, h, hmem]
  · exact h

/-! ### Claim theorems -/

/-- Claim C1: for every coordinate pair, if the primary (Nominatim) lookup
succeeds and returns a non-empty address object, `enrich` returns the
mapping of the primary provider's data exclusively — the result is
independent of the secondary (BigDataCloud) outcome, which is discarded
even when the primary result is sparser than the secondary's. -/
theorem enrich_primary_exclusive (lat lng : Float) (address : NominatimAddress)
    (bigDataCloudOutcome : FetchOutcome BigDataCloudData) :
    enrich lat lng (.ok (some { address := some address })) bigDataCloudOutcome =
      some (mapNominatimAddress lat lng address) := rfl

/-- Claim C2: for every coordinate pair, if the primary lookup fails or
returns nothing, and the secondary lookup succeeds with data, `enrich`
returns the mapping of the secondary provider's data: city from
`locality`, state from `principalSubdivision`, country from
`countryName`. -/
theorem enrich_secondary_fallback (lat lng : Float)
    (nominatimOutcome : FetchOutcome (Option NominatimResponse))
    (data : BigDataCloudData)
    (h : getNominatimAddress lat lng nominatimOutcome = none) :
    enrich lat lng nominatimOutcome (.ok data) =
      some { city := data.locality, state := data.principalSubdivision,
             country := data.countryName,
             formattedAddress := some (formatBigDataCloudAddress data),
             distanceFromStreet := none } := by
  unfold enrich
  rw [h]
  rfl

/-- Witness for C2 at a concrete input: primary errors out, secondary
returns Chicago data. -/
theorem enrich_secondary_fallback_witness :
    getNominatimAddress 41.8781 (-87.6298) .fetchError = none ∧
    enrich 41.8781 (-87.6298) .fetchError (.ok exampleBigDataCloudData) =
      some { city := some "Chicago", state := some "Illinois",
             country := some "United States",
             formattedAddress := some "Chicago, Illinois, United States",
             distanceFromStreet := none } :=
  ⟨rfl, enrich_secondary_fallback 41.8781 (-87.6298) .fetchError
    exampleBigDataCloudData rfl⟩

/-- Claim C3: for every coordinate pair, if both provider lookups fail or
return nothing, `enrich` resolves to `none` (absence), not an error. -/
theorem enrich_both_empty (lat lng : Float)
    (nominatimOutcome : FetchOutcome (Option NominatimResponse))
    (bigDataCloudOutcome : FetchOutcome BigDataCloudData)
    (h1 : getNominatimAddress lat lng nominatimOutcome = none)
    (h2 : getBigDataCloudAddress lat lng bigDataCloudOutcome = none) :
    enrich lat lng nominatimOutcome bigDataCloudOutcome = none := by
  unfold enrich
  rw [h1, h2]
  rfl

/-- Witness for C3 at a concrete input: both providers error out. -/
theorem enrich_both_empty_witness :
    getNominatimAddress 41.8781 (-87.6298) .fetchError = none ∧
    getBigDataCloudAddress 41.8781 (-87.6298) .fetchError = none ∧
    enrich 41.8781 (-87.6298) .fetchError .fetchError = none :=
  ⟨rfl, rfl, enrich_both_empty 41.8781 (-87.6298) .fetchError .fetchError rfl rfl⟩

/-- Claim C4: `enrich` never propagates an error: a thrown network/parse
error from either provider is converted into absence of that provider's
result, and the whole operation is total — on every input it resolves to
either an `AddressComponents` value or absence (being a total Lean
function into `Option`, it can never throw). -/
theorem enrich_never_throws (lat lng : Float) :
    getNominatimAddress lat lng .fetchError = none ∧
    getBigDataCloudAddress lat lng .fetchError = none ∧
    ∀ (nominatimOutcome : FetchOutcome (Option NominatimResponse))
      (bigDataCloudOutcome : FetchOutcome BigDataCloudData),
      enrich lat lng nominatimOutcome bigDataCloudOutcome = none ∨
        ∃ c, enrich lat lng nominatimOutcome bigDataCloudOutcome = some c := by
  refine ⟨rfl, rfl, fun nominatimOutcome bigDataCloudOutcome => ?_⟩
  cases h : enrich lat lng nominatimOutcome bigDataCloudOutcome with
  | none => exact Or.inl rfl
  | some c => exact Or.inr ⟨c, rfl⟩

/-- Claim C8: `calculateDistanceFromStreet` always returns `null`, and
every `AddressComponents` value that `enrich` returns has
`distanceFromStreet = null` — no geometric computation is ever performed
for either provider's mapping. -/
theorem distanceFromStreet_always_null :
    (∀ (lat lng : Float) (address : NominatimAddress),
        calculateDistanceFromStreet lat lng address = none) ∧
    ∀ (lat lng : Float) (nominatimOutcome : FetchOutcome (Option NominatimResponse))
      (bigDataCloudOutcome : FetchOutcome BigDataCloudData) (c : AddressComponents),
      enrich lat lng nominatimOutcome bigDataCloudOutcome = some c →
        c.distanceFromStreet = none := by
  refine ⟨calcDist_none, ?_⟩
  intro lat lng nominatimOutcome bigDataCloudOutcome c h
  rcases nominatimOutcome with _ | (_ | ⟨_ | addr⟩) <;>
    rcases bigDataCloudOutcome with _ | d <;>
    simp [enrich, getEnhancedAddress, getNominatimAddress, getBigDataCloudAddress,
      mapNominatimAddress, mapBigDataCloudAddress] at h <;>
    simp [← h, calcDist_none]

/-- Witness for C8 at a concrete input: a successful primary lookup with a
street address still yields `distanceFromStreet = none`. -/
theorem distanceFromStreet_always_null_witness :
    enrich 41.8781 (-87.6298) (.ok (some exampleNominatimResponse)) .fetchError =
      some (mapNominatimAddress 41.8781 (-87.6298) exampleNominatimAddress) ∧
    (mapNominatimAddress 41.8781 (-87.6298)
        exampleNominatimAddress).distanceFromStreet = none :=
  ⟨rfl, distanceFromStreet_always_null.2 41.8781 (-87.6298)
    (.ok (some exampleNominatimResponse)) .fetchError _ rfl⟩

/-- Claim C5: for every primary-provider address object, the formatted
address is the `", "`-join, omitting empty segments, of street line
(house number plus street name when both present, else street name
alone), neighborhood, city, state, country; and on the spec's example
input it yields `"233 S Wacker Dr, Chicago, Illinois, USA"` with display
string `"233 S Wacker Dr"`. -/
theorem formatNominatim_join_empty_omitted :
    (∀ address : NominatimAddress,
        formatNominatimAddress address = formattedAddressSpec address) ∧
    formatNominatimAddress exampleNominatimAddress =
      "233 S Wacker Dr, Chicago, Illinois, USA" ∧
    getDisplayAddress
        (some (mapNominatimAddress 41.8781 (-87.6298) exampleNominatimAddress))
        none =
      "233 S Wacker Dr" := by
  refine ⟨fun address => ?_, by decide, by decide⟩
  unfold formatNominatimAddress formattedAddressSpec
  rw [nominatimParts_chunks, filter_five, streetLine_filter]

/-- Claim C6: `getDisplayAddress` returns the first available of street
number + street name, street name alone, neighborhood, city, the
formatted-address string, the supplied fallback, then the literal
`"Location unknown"`; in particular `getDisplayAddress none (some "X") =
"X"` and `getDisplayAddress none none = "Location unknown"`. -/
theorem getDisplayAddress_precedence :
    (∀ (enhancedAddress : Option AddressComponents) (fallbackAddress : Option String),
        getDisplayAddress enhancedAddress fallbackAddress =
          displaySpec enhancedAddress fallbackAddress) ∧
    getDisplayAddress none (some "X") = "X" ∧
    getDisplayAddress none none = "Location unknown" := by
  refine ⟨fun enhancedAddress fallbackAddress => ?_, by decide, by decide⟩
  cases enhancedAddress with
  | none =>
    simp only [getDisplayAddress, displaySpec, List.nil_append, firstAvailable,
      sval_orT]
    split <;> rfl
  | some e =>
    simp only [getDisplayAddress, displaySpec, List.cons_append, List.nil_append,
      firstAvailable, sval_orT]
    by_cases h1 : (truthy e.streetNumber && truthy e.streetName) = true
    · have hx : truthy (some (sval e.streetNumber ++ " " ++ sval e.streetName)) = true := by
        rw [truthy_some, isEmpty_append_space]
        rfl
      simp only [h1, if_true, hx, sval_some]
    · simp [h1, truthy_none, sval_some]

/-- Claim C7: the segment list that `getDescriptiveLocation` builds and
comma-joins never contains the same string twice — neighborhood, city and
state are appended only when not already present (exact string equality),
so e.g. with neighborhood and city both `"Chicago"` the output is
`"Chicago"` once. -/
theorem descriptive_no_duplicate_segments :
    (∀ e : AddressComponents, (descriptiveParts e).Nodup) ∧
    descriptiveParts { neighborhood := some "Chicago", city := some "Chicago" } =
      ["Chicago"] ∧
    getDescriptiveLocation
        (some { neighborhood := some "Chicago", city := some "Chicago" }) none =
      "Chicago" := by
  refine ⟨fun e => ?_, by decide, by decide⟩
  unfold descriptiveParts
  refine pushIfNew_nodup _ _ (pushIfNew_nodup _ _ (pushIfNew_nodup _ _ ?_))
  split
  · exact List.nodup_singleton _
  · split
    · exact List.nodup_singleton _
    · exact List.nodup_nil

/-- Claim C9: for both display helpers, an empty-string fallback behaves
exactly like an absent fallback; with absence, or with a components value
whose usable fields are all missing, and fallback `""`, both helpers
return `"Location unknown"`, never the empty string. -/
theorem empty_fallback_like_absent :
    (∀ enhancedAddress : Option AddressComponents,
        getDisplayAddress enhancedAddress (some "") =
          getDisplayAddress enhancedAddress none ∧
        getDescriptiveLocation enhancedAddress (some "") =
          getDescriptiveLocation enhancedAddress none) ∧
    getDisplayAddress none (some "") = "Location unknown" ∧
    getDescriptiveLocation none (some "") = "Location unknown" ∧
    getDisplayAddress (some {}) (some "") = "Location unknown" ∧
    getDescriptiveLocation (some {}) (some "") = "Location unknown" := by
  have h1 : ∀ b, orT (some "") b = b := fun b => rfl
  have h2 : ∀ b, orT none b = b := fun b => rfl
  refine ⟨fun enhancedAddress => ⟨?_, ?_⟩, by decide, by decide, by decide, by decide⟩ <;>
    cases enhancedAddress <;>
    simp [getDisplayAddress, getDescriptiveLocation, h1, h2]

/-- Claim C10: every result mapped from the secondary (BigDataCloud)
provider leaves `streetNumber`, `streetName`, `neighborhood` and
`postalCode` absent and `distanceFromStreet` null, so its display string
can only come from the city, formatted-address or fallback branches. -/
theorem bigDataCloud_never_street_detail (data : BigDataCloudData)
    (fallbackAddress : Option String) :
    (mapBigDataCloudAddress data).streetNumber = none ∧
    (mapBigDataCloudAddress data).streetName = none ∧
    (mapBigDataCloudAddress data).neighborhood = none ∧
    (mapBigDataCloudAddress data).postalCode = none ∧
    (mapBigDataCloudAddress data).distanceFromStreet = none ∧
    (getDisplayAddress (some (mapBigDataCloudAddress data)) fallbackAddress =
        sval data.locality ∨
      getDisplayAddress (some (mapBigDataCloudAddress data)) fallbackAddress =
        formatBigDataCloudAddress data ∨
      getDisplayAddress (some (mapBigDataCloudAddress data)) fallbackAddress =
        sval fallbackAddress ∨
      getDisplayAddress (some (mapBigDataCloudAddress data)) fallbackAddress =
        "Location unknown") := by
  refine ⟨rfl, rfl, rfl, rfl, rfl, ?_⟩
  simp only [getDisplayAddress, mapBigDataCloudAddress, sval_orT, truthy,
    Bool.false_and, Bool.false_eq_true, if_false]
  split
  · exact Or.inl rfl
  · split
    · exact Or.inr (Or.inl rfl)
    · split
      · exact Or.inr (Or.inr (Or.inl rfl))
      · exact Or.inr (Or.inr (Or.inr rfl))

end ChicagoOracle
